import Mathlib

/-!
Shallow embedding of the booking orchestration code of this repository:
the agent tool functions in `src/agent.py` and the gateway proxy in
`src/gateway_lambda_proxy.py`.  Network interactions are modelled by
explicit oracle records (`AgentNet`, `GwNet`) whose fields give the
response — or the raised transport/backend failure — of each remote
endpoint; Python exceptions are modelled with `Except`/`Option`, and the
write requests actually issued to the booking endpoint are returned
alongside each result so that "no write was issued" is expressible.
Python string primitives (`str.split`, `str.replace`, `str.index`,
`datetime.fromisoformat`, `strftime`) are embedded as executable
functions over the character list of the string.
-/

/-! ## String primitives -/

/-- Splits a character list at every occurrence of the separator character,
mirroring Python `str.split(sep)` for a one-character separator. -/
def splitOnChar (c : Char) : List Char → List (List Char)
  | [] => [[]]
  | x :: xs =>
    let r := splitOnChar c xs
    if x = c then [] :: r
    else
      match r with
      | [] => [[x]]
      | y :: ys => (x :: y) :: ys

/-- Embeds `service_ids.split(',')` (src/agent.py lines 77 and 137). -/
def pySplitComma (s : String) : List String :=
  (splitOnChar ',' s.data).map String.mk

/-- Embeds `','.join(ids)` (src/gateway_lambda_proxy.py line 42). -/
def joinComma : List String → String
  | [] => ""
  | [s] => s
  | s :: rest => s ++ "," ++ joinComma rest

/-- Decimal digit test on a character. -/
def isDigitCh (c : Char) : Bool := 48 ≤ c.toNat && c.toNat ≤ 57

/-- Numeric value of a decimal digit character. -/
def digitVal (c : Char) : Nat := c.toNat - 48

/-- Parses a non-empty all-digit character list as a natural number,
as Python `int(...)` does on the digit fields of a timestamp. -/
def natOfChars (l : List Char) : Option Nat :=
  if l ≠ [] && l.all isDigitCh then
    some (l.foldl (fun acc c => acc * 10 + digitVal c) 0)
  else none

/-- Decimal digit character for a value below ten. -/
def digitChar (d : Nat) : Char := Char.ofNat (48 + d)

/-- Two-digit zero-padded decimal rendering, as in `strftime('%H')` etc. -/
def pad2 (n : Nat) : String := String.mk [digitChar (n / 10), digitChar (n % 10)]

/-- Four-digit zero-padded decimal rendering, as in `strftime('%Y')` for
years of at most four digits. -/
def pad4 (n : Nat) : String :=
  String.mk [digitChar (n / 1000 % 10), digitChar (n / 100 % 10),
             digitChar (n / 10 % 10), digitChar (n % 10)]

/-- Embeds `iso_date.replace('Z', '+00:00')`
(src/gateway_lambda_proxy.py lines 63 and 102). -/
def replaceZwithOffset (s : String) : String :=
  String.mk (s.data.flatMap (fun c => if c = 'Z' then "+00:00".data else [c]))

/-- Embeds `date.split('T')[0]` (src/agent.py line 99): the part of the
string before the first `T`, or the whole string when no `T` occurs. -/
def headBeforeT (date : String) : String :=
  String.mk ((splitOnChar 'T' date.data).headD [])

/-! ## Data model (JSON objects exchanged with the scheduling API) -/

/-- A service object of the catalog, with the fields the orchestration code
reads (`_id`, `name`, `duration`, `price`); the display-only `type` and
`description` fields are omitted. -/
structure Service where
  _id : String
  name : String
  duration : Int
  price : Int
  deriving DecidableEq, Repr

/-- The `hour` sub-object of a slot returned by the agent-side availability
endpoint (`POST /bookings/availableTime`). -/
structure Hour where
  startTime : String
  endTime : String
  deriving DecidableEq, Repr

/-- A slot as consumed by `create_booking` in src/agent.py: the `hour` key
may be absent (the code reads it with `slot.get('hour', ...)`), and the
`establishment` value is carried through opaquely into the write payload. -/
structure AgentSlot where
  hour : Option Hour
  establishment : String
  deriving DecidableEq, Repr

/-- A slot of the `availableTime` collection consumed by the gateway's
`createBooking` branch; the code copies exactly these five fields into
`matching_hour` (src/gateway_lambda_proxy.py lines 129–135). -/
structure GatewaySlot where
  startTime : String
  endTime : String
  time : String
  duration : Int
  employees : List String
  deriving DecidableEq, Repr

/-! ## Calendar and timezone conversion

`src/gateway_lambda_proxy.py` converts UTC ISO timestamps with
`datetime.fromisoformat(iso.replace('Z', '+00:00')).astimezone(pytz.timezone('America/Guayaquil'))`.
America/Guayaquil has had the fixed offset UTC−5 with no daylight saving
since 1993, so for the timestamps this system handles the conversion
subtracts exactly 300 minutes, borrowing one civil calendar day when the
UTC time-of-day is before 05:00. -/

/-- Gregorian leap-year rule, as implemented by Python's `datetime`. -/
def isLeap (y : Nat) : Bool := (y % 4 == 0 && y % 100 != 0) || y % 400 == 0

/-- Number of days of a month in the Gregorian calendar. -/
def daysInMonth (y m : Nat) : Nat :=
  if m = 2 then (if isLeap y then 29 else 28)
  else if m = 4 ∨ m = 6 ∨ m = 9 ∨ m = 11 then 30
  else 31

/-- A civil calendar date. -/
structure CivilDate where
  year : Nat
  month : Nat
  day : Nat
  deriving DecidableEq, Repr

/-- A civil calendar date is valid when its fields are in Gregorian range. -/
def ValidCivilDate (d : CivilDate) : Prop :=
  1 ≤ d.year ∧ 1 ≤ d.month ∧ d.month ≤ 12 ∧ 1 ≤ d.day ∧ d.day ≤ daysInMonth d.year d.month

instance (d : CivilDate) : Decidable (ValidCivilDate d) := by
  unfold ValidCivilDate; infer_instance

/-- The calendar day immediately before the given one (the day borrowed
into when `astimezone` crosses midnight backwards). -/
def prevCivilDay (d : CivilDate) : CivilDate :=
  if 1 < d.day then ⟨d.year, d.month, d.day - 1⟩
  else if 1 < d.month then ⟨d.year, d.month - 1, daysInMonth d.year (d.month - 1)⟩
  else ⟨d.year - 1, 12, 31⟩

/-- Spec-side definition, following the specification's words: the
successor of a civil calendar date, used to state that normalization
"yields the previous civil calendar date". -/
def nextCivilDay (d : CivilDate) : CivilDate :=
  if d.day < daysInMonth d.year d.month then ⟨d.year, d.month, d.day + 1⟩
  else if d.month < 12 then ⟨d.year, d.month + 1, 1⟩
  else ⟨d.year + 1, 1, 1⟩

/-- A Python `datetime` value as produced by `datetime.fromisoformat`:
a wall-clock timestamp (year, month, day, hour, minute, second). -/
structure PyDatetime where
  year : Nat
  month : Nat
  day : Nat
  hour : Nat
  minute : Nat
  second : Nat
  deriving DecidableEq, Repr

/-- The date part of a timestamp. -/
def civilDateOf (t : PyDatetime) : CivilDate := ⟨t.year, t.month, t.day⟩

/-- Offset of America/Guayaquil behind UTC, in minutes. -/
def GUAYAQUIL_OFFSET_MINUTES : Nat := 300

/-- Embeds `utc_dt.astimezone(pytz.timezone('America/Guayaquil'))` on a UTC
timestamp (src/gateway_lambda_proxy.py lines 63–65 and 102–104): subtract
five hours, borrowing one civil day when the UTC time-of-day is before
05:00. -/
def toGuayaquil (t : PyDatetime) : PyDatetime :=
  let mins := t.hour * 60 + t.minute
  if GUAYAQUIL_OFFSET_MINUTES ≤ mins then
    { t with hour := (mins - GUAYAQUIL_OFFSET_MINUTES) / 60,
             minute := (mins - GUAYAQUIL_OFFSET_MINUTES) % 60 }
  else
    let d := prevCivilDay ⟨t.year, t.month, t.day⟩
    let m2 := mins + 1440 - GUAYAQUIL_OFFSET_MINUTES
    { year := d.year, month := d.month, day := d.day,
      hour := m2 / 60, minute := m2 % 60, second := t.second }

/-- Embeds `strftime('%Y-%m-%d')` (src/gateway_lambda_proxy.py lines 66, 108). -/
def dateStr (t : PyDatetime) : String :=
  pad4 t.year ++ "-" ++ pad2 t.month ++ "-" ++ pad2 t.day

/-- Embeds `strftime('%H:%M')` (src/gateway_lambda_proxy.py line 109). -/
def timeStr (t : PyDatetime) : String :=
  pad2 t.hour ++ ":" ++ pad2 t.minute

/-- Field extraction of `datetime.fromisoformat` on a timestamp of the form
`YYYY-MM-DDTHH:MM[:SS[.ffffff]]+00:00` (the form the gateway produces by
replacing `Z` with `+00:00`; other offsets are outside the modelled scope,
the claims only concern UTC inputs).  Returns the six numeric fields
without range validation. -/
def parseFields (s : String) : Option (Nat × Nat × Nat × Nat × Nat × Nat) :=
  match splitOnChar 'T' s.data with
  | [dpart, tpart] =>
    if 6 ≤ tpart.length ∧ tpart.drop (tpart.length - 6) = "+00:00".data then
      let tcore := tpart.take (tpart.length - 6)
      let tmain :=
        match splitOnChar '.' tcore with
        | [m] => some m
        | [m, frac] => if frac ≠ [] ∧ frac.all isDigitCh ∧ frac.length ≤ 6 then some m else none
        | _ => none
      match tmain with
      | none => none
      | some tm =>
        match splitOnChar '-' dpart, splitOnChar ':' tm with
        | [ys, ms, ds], [hs, mins] =>
          if ys.length = 4 ∧ ms.length = 2 ∧ ds.length = 2 ∧ hs.length = 2 ∧ mins.length = 2 then
            match natOfChars ys, natOfChars ms, natOfChars ds, natOfChars hs, natOfChars mins with
            | some y, some mo, some d, some h, some mi => some (y, mo, d, h, mi, 0)
            | _, _, _, _, _ => none
          else none
        | [ys, ms, ds], [hs, mins, secs] =>
          if ys.length = 4 ∧ ms.length = 2 ∧ ds.length = 2 ∧ hs.length = 2 ∧ mins.length = 2 ∧ secs.length = 2 then
            match natOfChars ys, natOfChars ms, natOfChars ds, natOfChars hs, natOfChars mins, natOfChars secs with
            | some y, some mo, some d, some h, some mi, some se => some (y, mo, d, h, mi, se)
            | _, _, _, _, _, _ => none
          else none
        | _, _ => none
    else none
  | _ => none

/-- Range validation performed by `datetime.fromisoformat` (a value out of
calendar range raises `ValueError`, modelled as `none`). -/
def mkValidated (y mo d h mi se : Nat) : Option PyDatetime :=
  if 1 ≤ y ∧ 1 ≤ mo ∧ mo ≤ 12 ∧ 1 ≤ d ∧ d ≤ daysInMonth y mo ∧ h < 24 ∧ mi < 60 ∧ se < 60 then
    some ⟨y, mo, d, h, mi, se⟩
  else none

/-- Embeds `datetime.fromisoformat` on the UTC-offset timestamps the
gateway feeds it; `none` models the `ValueError` raised on a malformed or
out-of-range timestamp. -/
def fromisoformatUtc (s : String) : Option PyDatetime :=
  match parseFields s with
  | some (y, mo, d, h, mi, se) => mkValidated y mo d h mi se
  | none => none

/-- Embeds the date-parameter normalization of the gateway's
`getAvailableTimes` branch (src/gateway_lambda_proxy.py lines 61–69): an
ISO timestamp (detected by a `T` in the string) is parsed as UTC and
rendered as the GMT−5 local date; a bare `YYYY-MM-DD` string passes
through unchanged.  `none` models the uncaught-within-the-branch
`ValueError` (it is caught by the handler's outermost `except`). -/
def toLocalDateParam (iso_date : String) : Option String :=
  if iso_date.data.contains 'T' then
    (fromisoformatUtc (replaceZwithOffset iso_date)).map (fun u => dateStr (toGuayaquil u))
  else some iso_date

/-- Embeds the `date_str`/`time_str` derivation of the gateway's
`createBooking` branch (src/gateway_lambda_proxy.py lines 100–109): both
strings come from the one instant `schedule_selected.isoDate`. -/
def localDateTimeStrs (iso_date : String) : Option (String × String) :=
  (fromisoformatUtc (replaceZwithOffset iso_date)).map
    (fun u => (dateStr (toGuayaquil u), timeStr (toGuayaquil u)))

/-! ## Spec-side quantities -/

/-- Spec-side definition, following the specification's words: the
aggregate duration of a set of services is the sum of their
`durationMinutes`.  The code under test never computes this quantity; it
is stated here to compare against the `duration` values the code places
in its requests. -/
def sumDurations (services : List Service) : Int :=
  (services.map Service.duration).sum

/-! ## Service resolution (src/agent.py) -/

/-- Embeds `[s for s in all_services if s['_id'] in service_id_list]` with
`service_id_list = service_ids.split(',')` (src/agent.py lines 77–83 and
137–143): the fetched catalog filtered to the requested identifiers,
preserving catalog order.  No error is produced for identifiers absent
from the catalog. -/
def resolveServices (all_services : List Service) (service_ids : String) : List Service :=
  all_services.filter (fun s => s._id ∈ pySplitComma service_ids)

/-- The availability request body built identically at src/agent.py
lines 85–90 (`get_available_times`) and 145–150 (`create_booking`). -/
structure AvailPayload where
  date : String
  establishmentId : String
  duration : Int
  services : List Service
  deriving DecidableEq, Repr

/-- Embeds the `payload` / `available_times_payload` dict construction of
src/agent.py: the `duration` field is the caller-supplied
`total_duration` argument, the `services` field the filtered catalog. -/
def availableTimesPayload (all_services : List Service) (date establishment_id : String)
    (service_ids : String) (total_duration : Int) : AvailPayload :=
  { date := date, establishmentId := establishment_id, duration := total_duration,
    services := resolveServices all_services service_ids }

/-! ## First-match loop -/

/-- Embeds the `for slot in slots: if <match>: selected = slot; break`
loop pattern used at src/agent.py lines 159–163 and
src/gateway_lambda_proxy.py lines 126–136. -/
def pyFirstMatch (p : α → Bool) : List α → Option α
  | [] => none
  | x :: xs => if p x then some x else pyFirstMatch p xs

/-- Embeds `slot.get('hour', dict()).get('startTime')` (src/agent.py
line 161): the start time of a slot, absent when the slot has no `hour`. -/
def hourStart (slot : AgentSlot) : Option String := slot.hour.map Hour.startTime

/-- Embeds the slot-selection loop of `create_booking` (src/agent.py
lines 159–163): the first slot of the fresh availability response whose
`hour.startTime` equals the desired time. -/
def selectSlot (time : String) (slots : List AgentSlot) : Option AgentSlot :=
  pyFirstMatch (fun slot => decide (hourStart slot = some time)) slots

/-- Embeds the matching loop of the gateway's `createBooking` branch
(src/gateway_lambda_proxy.py lines 126–136): the first slot of the
`availableTime` collection whose `startTime` equals `time_str`.  The
source copies the five slot fields into a fresh `matching_hour` dict;
since `GatewaySlot` consists of exactly those five fields, the copy is
the slot itself. -/
def matchingHour (time_str : String) (slots : List GatewaySlot) : Option GatewaySlot :=
  pyFirstMatch (fun slot => decide (slot.startTime = time_str)) slots

/-! ## Agent tool operations (src/agent.py) -/

/-- The `customerInfo` object of the agent's booking write payload
(src/agent.py lines 169–181). -/
structure AgentCustomerInfo where
  email : String
  name : String
  lastName : String
  phoneNumber : String
  gender : String
  identification : String
  phoneCode : String
  deriving DecidableEq, Repr

/-- The `scheduleSelected` object of the agent's booking write payload
(src/agent.py lines 184–188), built from the server-returned slot. -/
structure AgentSchedule where
  establishment : String
  hour : Hour
  date : String
  deriving DecidableEq, Repr

/-- The body of `POST /bookings/` as built by `create_booking`
(src/agent.py lines 168–190). -/
structure AgentBookingPayload where
  customerInfo : AgentCustomerInfo
  duration : Int
  servicesSelected : List Service
  scheduleSelected : AgentSchedule
  deriving DecidableEq, Repr

/-- The fields of the backend's booking confirmation (`result['booking']`)
that the agent reads when formatting its confirmation text
(src/agent.py lines 196–203). -/
structure BookingRespBody where
  customerName : String
  customerLastName : String
  date : String
  startTime : String
  endTime : String
  establishmentName : String
  services : List Service
  deriving DecidableEq, Repr

/-- Network oracle for the agent tools: each field gives the decoded
response of the corresponding remote endpoint, or `Except.error` for any
exception raised by the call (transport failure, non-2xx status via
`raise_for_status`, JSON decoding failure). -/
structure AgentNet where
  getServicesResp : Except String (List Service)
  availableTimeResp : AvailPayload → Except String (List AgentSlot)
  postBookingResp : AgentBookingPayload → Except String BookingRespBody

/-- Embeds the slot lines of the availability listing
(src/agent.py lines 100–102): one line per slot that has an `hour` key. -/
def formatSlotLines : List AgentSlot → String
  | [] => ""
  | slot :: rest =>
    (match slot.hour with
     | some h => "- " ++ h.startTime ++ " - " ++ h.endTime ++ "\n"
     | none => "")
    ++ formatSlotLines rest

/-- Embeds the confirmation text built from the backend's booking object
(src/agent.py lines 196–203). -/
def formatConfirmation (b : BookingRespBody) : String :=
  "Booking confirmed!\n\n"
  ++ "Name: " ++ b.customerName ++ " " ++ b.customerLastName ++ "\n"
  ++ "Date: " ++ b.date ++ "\n"
  ++ "Time: " ++ b.startTime ++ " - " ++ b.endTime ++ "\n"
  ++ "Location: " ++ b.establishmentName ++ "\n"
  ++ "Services:\n"
  ++ String.join (b.services.map (fun s => "  - " ++ s.name ++ " (" ++ toString s.duration ++ " min)\n"))

/-- Embeds the tool `get_available_times` (src/agent.py lines 65–106).
The whole body runs under `try/except`, so every raised exception is
returned as the string `"Error fetching available times: ..."`. -/
def get_available_times (net : AgentNet) (date establishment_id service_ids : String)
    (total_duration : Int) : String :=
  match net.getServicesResp with
  | .error e => "Error fetching available times: " ++ e
  | .ok all_services =>
    match net.availableTimeResp
        (availableTimesPayload all_services date establishment_id service_ids total_duration) with
    | .error e => "Error fetching available times: " ++ e
    | .ok data =>
      if data = [] then "No available time slots found for this date."
      else "Available times for " ++ headBeforeT date ++ ":\n\n" ++ formatSlotLines data

/-- Embeds the tool `create_booking` (src/agent.py lines 108–207).  The
first component is the returned text; the second lists the write requests
issued to `POST /bookings/` during the call (empty when the write
endpoint was never contacted).  The whole body runs under `try/except`,
so every raised exception is returned as the string
`"Error creating booking: ..."`.  The unreachable missing-`hour` branch
models the `KeyError` Python would raise at `selected_slot['hour']`. -/
def create_booking (net : AgentNet)
    (customer_name customer_last_name customer_email customer_phone customer_phone_code : String)
    (service_ids establishment_id date time : String) (total_duration : Int) :
    String × List AgentBookingPayload :=
  match net.getServicesResp with
  | .error e => ("Error creating booking: " ++ e, [])
  | .ok all_services =>
    let services_selected := resolveServices all_services service_ids
    match net.availableTimeResp
        (availableTimesPayload all_services date establishment_id service_ids total_duration) with
    | .error e => ("Error creating booking: " ++ e, [])
    | .ok available_slots =>
      match selectSlot time available_slots with
      | none => ("Time slot " ++ time ++ " is no longer available. Please choose another time.", [])
      | some selected_slot =>
        match selected_slot.hour with
        | none => ("Error creating booking: missing hour key", [])
        | some h =>
          let booking_payload : AgentBookingPayload :=
            { customerInfo :=
                { email := customer_email, name := customer_name,
                  lastName := customer_last_name, phoneNumber := customer_phone,
                  gender := "", identification := "", phoneCode := customer_phone_code },
              duration := total_duration,
              servicesSelected := services_selected,
              scheduleSelected :=
                { establishment := selected_slot.establishment, hour := h, date := date } }
          match net.postBookingResp booking_payload with
          | .error e => ("Error creating booking: " ++ e, [booking_payload])
          | .ok result => (formatConfirmation result, [booking_payload])

/-! ## Gateway proxy (src/gateway_lambda_proxy.py) -/

/-- The `customerInfo` object of the gateway's booking write payload
(src/gateway_lambda_proxy.py lines 151–158). -/
structure GwCustomerInfo where
  email : String
  name : String
  lastName : String
  phoneNumber : String
  phoneCode : String
  deriving DecidableEq, Repr

/-- The `scheduleSelected` object rebuilt by the gateway from the matched
fresh slot (src/gateway_lambda_proxy.py lines 141–148). -/
structure GwSchedule where
  establishmentId : String
  establishmentName : String
  date : String
  hour : GatewaySlot
  deriving DecidableEq, Repr

/-- The body of `POST /bookings/` as built by the gateway's
`createBooking` branch (src/gateway_lambda_proxy.py lines 150–162). -/
structure GwBookingPayload where
  customerInfo : GwCustomerInfo
  duration : Int
  servicesSelected : List Service
  scheduleSelected : GwSchedule
  deriving DecidableEq, Repr

/-- Query parameters of `GET /bookings/availableTime` as sent by the
gateway's `getAvailableTimes` branch (src/gateway_lambda_proxy.py
lines 71–80): the services are forwarded as full service objects. -/
structure GwAvailParams where
  date : String
  establishmentId : String
  duration : Int
  services : List Service
  deriving DecidableEq, Repr

/-- Query parameters of `GET /bookings/availableTime` as sent by the
re-check inside the gateway's `createBooking` branch
(src/gateway_lambda_proxy.py lines 113–122): the services are forwarded
as a list of identifiers. -/
structure GwAvailIdParams where
  date : String
  establishmentId : String
  duration : Int
  serviceIds : List String
  deriving DecidableEq, Repr

/-- The re-check request of the `createBooking` branch: date from the
normalized instant, duration from the caller-supplied `total_duration`,
service ids extracted from `services_selected`
(src/gateway_lambda_proxy.py lines 111–122). -/
def gwAvailRequest (establishment_id : String) (total_duration : Int)
    (services_selected : List Service) (date_str : String) : GwAvailIdParams :=
  { date := date_str, establishmentId := establishment_id,
    duration := total_duration,
    serviceIds := services_selected.map (fun s => s._id) }

/-- Network oracle for the gateway: each field gives the decoded response
of the corresponding remote call, or `Except.error` for any exception the
call raises.  `availableTimeIdsResp` yields the `availableTime`
collection of the response (`response.json().get('availableTime', [])`,
line 127); passthrough JSON bodies are modelled as opaque strings. -/
structure GwNet where
  servicesResp : Except String String
  establishmentsResp : String → Except String String
  availableTimeResp : GwAvailParams → Except String String
  availableTimeIdsResp : GwAvailIdParams → Except String (List GatewaySlot)
  postBookingResp : GwBookingPayload → Except String String

/-- Event parameters consumed by the gateway handler (read with
`parameters.get(...)`; `total_duration` defaults to `0` as in the
source). -/
structure GwParams where
  service_ids : List String
  services : List Service
  date : String
  establishment_id : String
  establishment_name : String
  total_duration : Int
  services_selected : List Service
  schedule_isoDate : String
  customer_email : String
  customer_name : String
  customer_last_name : String
  customer_phone : String
  customer_phone_code : String
  deriving Repr

/-- A value returned by the gateway handler's guarded body: either the
backend's response passed through, or an `error` object. -/
inductive GwOutcome where
  | result (body : String)
  | errorObj (msg : String)
  deriving DecidableEq, Repr

/-- Embeds the `createBooking` branch of the gateway handler
(src/gateway_lambda_proxy.py lines 84–165).  The `Except.error` cases are
the exceptions that propagate to the handler's outermost `except`; the
second component lists the write requests issued to `POST /bookings/`. -/
def createBooking_gw (net : GwNet) (p : GwParams) :
    Except String GwOutcome × List GwBookingPayload :=
  match fromisoformatUtc (replaceZwithOffset p.schedule_isoDate) with
  | none => (.error "Invalid isoformat string", [])
  | some utc_dt =>
    let local_dt := toGuayaquil utc_dt
    let date_str := dateStr local_dt
    let time_str := timeStr local_dt
    match net.availableTimeIdsResp
        (gwAvailRequest p.establishment_id p.total_duration p.services_selected date_str) with
    | .error e => (.error e, [])
    | .ok slots =>
      match matchingHour time_str slots with
      | none => (.ok (.errorObj ("No available time slot found for " ++ time_str)), [])
      | some slot =>
        let payload : GwBookingPayload :=
          { customerInfo :=
              { email := p.customer_email, name := p.customer_name,
                lastName := p.customer_last_name, phoneNumber := p.customer_phone,
                phoneCode := p.customer_phone_code },
            duration := p.total_duration,
            servicesSelected := p.services_selected,
            scheduleSelected :=
              { establishmentId := p.establishment_id,
                establishmentName := p.establishment_name,
                date := date_str, hour := slot } }
        match net.postBookingResp payload with
        | .error e => (.error e, [payload])
        | .ok r => (.ok (.result r), [payload])

/-- Embeds the `getAvailableTimes` branch of the gateway handler
(src/gateway_lambda_proxy.py lines 51–82). -/
def getAvailableTimes_gw (net : GwNet) (p : GwParams) : Except String GwOutcome :=
  match toLocalDateParam p.date with
  | none => .error "Invalid isoformat string"
  | some date_param =>
    match net.availableTimeResp
        { date := date_param, establishmentId := p.establishment_id,
          duration := p.total_duration, services := p.services } with
    | .error e => .error e
    | .ok r => .ok (.result r)

/-- Embeds the tool-name extraction of the gateway handler
(src/gateway_lambda_proxy.py lines 24–26):
`original_tool_name[original_tool_name.index('___') + len('___'):]`.
`str.index` raises `ValueError` when the delimiter is absent; this
extraction runs BEFORE the handler's `try` block. -/
def afterDelim : List Char → Option (List Char)
  | [] => none
  | c :: rest =>
    if (c :: rest).take 3 = ['_', '_', '_'] then some ((c :: rest).drop 3)
    else afterDelim rest

/-- The tool-name extraction as an `Except`: the error is the uncaught
`ValueError` of `str.index`. -/
def extractToolName (original_tool_name : String) : Except String String :=
  match afterDelim original_tool_name.data with
  | some suffix => .ok (String.mk suffix)
  | none => .error "substring not found"

/-- Embeds the dispatch that runs inside the handler's `try` block
(src/gateway_lambda_proxy.py lines 34–174): every exception raised inside
it is converted to an `error` object by the `except` clause. -/
def guardedDispatch (net : GwNet) (tool_name : String) (p : GwParams) :
    GwOutcome × List GwBookingPayload :=
  if tool_name = "getServices" then
    match net.servicesResp with
    | .error e => (.errorObj e, [])
    | .ok r => (.result r, [])
  else if tool_name = "getEstablishmentsByServices" then
    match net.establishmentsResp (joinComma p.service_ids) with
    | .error e => (.errorObj e, [])
    | .ok r => (.result r, [])
  else if tool_name = "getAvailableTimes" then
    match getAvailableTimes_gw net p with
    | .error e => (.errorObj e, [])
    | .ok o => (o, [])
  else if tool_name = "createBooking" then
    match createBooking_gw net p with
    | (.error e, ws) => (.errorObj e, ws)
    | (.ok o, ws) => (o, ws)
  else (.errorObj ("Unknown tool: " ++ tool_name), [])

/-- Embeds `lambda_handler` (src/gateway_lambda_proxy.py lines 5–174).
A top-level `Except.error` is an exception that escapes the handler
uncaught (only the tool-name extraction can produce one, since it runs
before the `try` block); `Except.ok` carries the returned value together
with the write requests issued. -/
def lambda_handler (net : GwNet) (original_tool_name : String) (p : GwParams) :
    Except String (GwOutcome × List GwBookingPayload) :=
  match extractToolName original_tool_name with
  | .error e => .error e
  | .ok tool_name => .ok (guardedDispatch net tool_name p)

/-! ## Helper lemmas -/

theorem pyFirstMatch_eq_none_iff {α : Type _} {p : α → Bool} {l : List α} :
    pyFirstMatch p l = none ↔ ∀ x ∈ l, p x = false := by
  induction l with
  | nil => simp [pyFirstMatch]
  | cons a rest ih =>
    simp only [pyFirstMatch]
    by_cases h : p a = true
    · simp [h]
    · simp only [Bool.not_eq_true] at h
      simp [h, ih]

theorem pyFirstMatch_eq_some_iff {α : Type _} {p : α → Bool} {l : List α} {s : α} :
    pyFirstMatch p l = some s ↔
      ∃ l1 l2, l = l1 ++ s :: l2 ∧ p s = true ∧ ∀ x ∈ l1, p x = false := by
  induction l with
  | nil => simp [pyFirstMatch]
  | cons a rest ih =>
    simp only [pyFirstMatch]
    by_cases h : p a = true
    · simp only [if_pos h, Option.some.injEq]
      constructor
      · rintro rfl
        exact ⟨[], rest, rfl, h, by simp⟩
      · rintro ⟨l1, l2, heq, hs, hall⟩
        cases l1 with
        | nil =>
          simp only [List.nil_append, List.cons.injEq] at heq
          exact heq.1
        | cons b bs =>
          simp only [List.cons_append, List.cons.injEq] at heq
          have hb := hall b (by simp)
          rw [← heq.1] at hb
          rw [h] at hb
          cases hb
    · rw [if_neg h, ih]
      simp only [Bool.not_eq_true] at h
      constructor
      · rintro ⟨l1, l2, heq, hs, hall⟩
        refine ⟨a :: l1, l2, by rw [heq, List.cons_append], hs, ?_⟩
        intro x hx
        rcases List.mem_cons.mp hx with hx | hx
        · rw [hx]; exact h
        · exact hall x hx
      · rintro ⟨l1, l2, heq, hs, hall⟩
        cases l1 with
        | nil =>
          simp only [List.nil_append, List.cons.injEq] at heq
          rw [← heq.1] at hs
          rw [h] at hs
          cases hs
        | cons b bs =>
          simp only [List.cons_append, List.cons.injEq] at heq
          exact ⟨bs, l2, heq.2, hs, fun x hx => hall x (List.mem_cons.mpr (Or.inr hx))⟩

theorem pyFirstMatch_mem {α : Type _} {p : α → Bool} {l : List α} {s : α}
    (h : pyFirstMatch p l = some s) : s ∈ l ∧ p s = true := by
  obtain ⟨l1, l2, rfl, hs, -⟩ := pyFirstMatch_eq_some_iff.mp h
  exact ⟨by simp, hs⟩

theorem daysInMonth_december (y : Nat) : daysInMonth y 12 = 31 := rfl

theorem daysInMonth_pos (y m : Nat) : 1 ≤ daysInMonth y m := by
  unfold daysInMonth
  by_cases h2 : m = 2
  · simp only [h2, if_pos]
    split <;> omega
  · rw [if_neg h2]
    split <;> omega

theorem nextCivilDay_prevCivilDay (d : CivilDate) (h : ValidCivilDate d) :
    nextCivilDay (prevCivilDay d) = d := by
  obtain ⟨y, m, dd⟩ := d
  obtain ⟨hy, hm1, hm2, hd1, hd2⟩ := h
  simp only at hy hm1 hm2 hd1 hd2
  unfold prevCivilDay nextCivilDay
  simp only
  by_cases hdd : 1 < dd
  · rw [if_pos hdd]
    rw [if_pos (show dd - 1 < daysInMonth y m by omega)]
    rw [show dd - 1 + 1 = dd by omega]
  · by_cases hm : 1 < m
    · rw [if_neg hdd, if_pos hm]
      rw [if_neg (show ¬(daysInMonth y (m - 1) < daysInMonth y (m - 1)) by omega)]
      rw [if_pos (show m - 1 < 12 by omega)]
      rw [show m - 1 + 1 = m by omega, show dd = 1 by omega]
    · rw [if_neg hdd, if_neg hm]
      rw [if_neg (show ¬((31 : Nat) < daysInMonth (y - 1) 12) by rw [daysInMonth_december]; omega)]
      rw [if_neg (show ¬((12 : Nat) < 12) by omega)]
      rw [show y - 1 + 1 = y by omega, show m = 1 by omega, show dd = 1 by omega]

theorem nextCivilDay_ne (d : CivilDate) : nextCivilDay d ≠ d := by
  obtain ⟨y, m, dd⟩ := d
  unfold nextCivilDay
  simp only
  split
  · intro heq
    have := congrArg CivilDate.day heq
    simp only at this
    omega
  · split
    · intro heq
      have := congrArg CivilDate.month heq
      simp only at this
      omega
    · intro heq
      have := congrArg CivilDate.year heq
      simp only at this
      omega

theorem fromisoformatUtc_valid {s : String} {t : PyDatetime}
    (h : fromisoformatUtc s = some t) :
    ValidCivilDate (civilDateOf t) ∧ t.hour < 24 ∧ t.minute < 60 ∧ t.second < 60 := by
  unfold fromisoformatUtc at h
  cases hp : parseFields s with
  | none => rw [hp] at h; cases h
  | some q =>
    rw [hp] at h
    obtain ⟨y, mo, d, hh, mi, se⟩ := q
    simp only [mkValidated] at h
    split at h
    · rename_i hcond
      simp only [Option.some.injEq] at h
      subst h
      exact ⟨⟨hcond.1, hcond.2.1, hcond.2.2.1, hcond.2.2.2.1, hcond.2.2.2.2.1⟩,
             hcond.2.2.2.2.2.1, hcond.2.2.2.2.2.2.1, hcond.2.2.2.2.2.2.2⟩
    · cases h

theorem toGuayaquil_date_shift {t : PyDatetime} (hh : t.hour < 5) (hm : t.minute < 60) :
    civilDateOf (toGuayaquil t) = prevCivilDay (civilDateOf t) := by
  unfold toGuayaquil
  rw [if_neg (by unfold GUAYAQUIL_OFFSET_MINUTES; omega)]
  rfl

/-- Every write request issued by `create_booking` arises from a successful
catalog fetch, a successful fresh availability query, and a slot selected
from that fresh response; the payload is built exactly from those values. -/
theorem create_booking_write_shape (net : AgentNet)
    (cn cl ce cp cpc sids eid date time : String) (td : Int) (bp : AgentBookingPayload)
    (hbp : bp ∈ (create_booking net cn cl ce cp cpc sids eid date time td).2) :
    ∃ catalog slots sl h,
      net.getServicesResp = .ok catalog
      ∧ net.availableTimeResp (availableTimesPayload catalog date eid sids td) = .ok slots
      ∧ selectSlot time slots = some sl
      ∧ sl.hour = some h
      ∧ bp = { customerInfo :=
                 { email := ce, name := cn, lastName := cl, phoneNumber := cp,
                   gender := "", identification := "", phoneCode := cpc },
               duration := td,
               servicesSelected := resolveServices catalog sids,
               scheduleSelected :=
                 { establishment := sl.establishment, hour := h, date := date } } := by
  unfold create_booking at hbp
  cases hg : net.getServicesResp with
  | error e => rw [hg] at hbp; simp at hbp
  | ok catalog =>
    rw [hg] at hbp
    dsimp only at hbp
    cases ha : net.availableTimeResp (availableTimesPayload catalog date eid sids td) with
    | error e => rw [ha] at hbp; simp at hbp
    | ok slots =>
      rw [ha] at hbp
      dsimp only at hbp
      cases hsel : selectSlot time slots with
      | none => rw [hsel] at hbp; simp at hbp
      | some sl =>
        rw [hsel] at hbp
        dsimp only at hbp
        cases hslh : sl.hour with
        | none => rw [hslh] at hbp; simp at hbp
        | some h =>
          rw [hslh] at hbp
          dsimp only at hbp
          refine ⟨catalog, slots, sl, h, rfl, ha, hsel, hslh, ?_⟩
          cases hpost : net.postBookingResp _ with
          | error e => rw [hpost] at hbp; simp at hbp; exact hbp
          | ok r => rw [hpost] at hbp; simp at hbp; exact hbp

/-- Every write request issued by the gateway's `createBooking` branch
arises from a successfully normalized instant, a successful fresh
availability query keyed by that instant's local date, and a slot matched
against that instant's local time; the payload is built exactly from
those values. -/
theorem createBooking_gw_write_shape (net : GwNet) (p : GwParams) (bp : GwBookingPayload)
    (hbp : bp ∈ (createBooking_gw net p).2) :
    ∃ u slots sl,
      fromisoformatUtc (replaceZwithOffset p.schedule_isoDate) = some u
      ∧ net.availableTimeIdsResp
          (gwAvailRequest p.establishment_id p.total_duration p.services_selected
            (dateStr (toGuayaquil u))) = .ok slots
      ∧ matchingHour (timeStr (toGuayaquil u)) slots = some sl
      ∧ bp = { customerInfo :=
                 { email := p.customer_email, name := p.customer_name,
                   lastName := p.customer_last_name, phoneNumber := p.customer_phone,
                   phoneCode := p.customer_phone_code },
               duration := p.total_duration,
               servicesSelected := p.services_selected,
               scheduleSelected :=
                 { establishmentId := p.establishment_id,
                   establishmentName := p.establishment_name,
                   date := dateStr (toGuayaquil u), hour := sl } } := by
  unfold createBooking_gw at hbp
  cases hu : fromisoformatUtc (replaceZwithOffset p.schedule_isoDate) with
  | none => rw [hu] at hbp; simp at hbp
  | some u =>
    rw [hu] at hbp
    dsimp only at hbp
    cases ha : net.availableTimeIdsResp
        (gwAvailRequest p.establishment_id p.total_duration p.services_selected
          (dateStr (toGuayaquil u))) with
    | error e => rw [ha] at hbp; simp at hbp
    | ok slots =>
      rw [ha] at hbp
      dsimp only at hbp
      cases hm : matchingHour (timeStr (toGuayaquil u)) slots with
      | none => rw [hm] at hbp; simp at hbp
      | some sl =>
        rw [hm] at hbp
        dsimp only at hbp
        refine ⟨u, slots, sl, rfl, ha, hm, ?_⟩
        cases hpost : net.postBookingResp _ with
        | error e => rw [hpost] at hbp; simp at hbp; exact hbp
        | ok r => rw [hpost] at hbp; simp at hbp; exact hbp

/-! ## Concrete scenario objects (used to instantiate the theorems) -/

def svcS1 : Service := { _id := "S1", name := "Haircut", duration := 30, price := 10 }

def svcS2 : Service := { _id := "S2", name := "Beard", duration := 15, price := 5 }

def hour1000 : Hour := { startTime := "10:00", endTime := "10:30" }

def hour1030 : Hour := { startTime := "10:30", endTime := "11:00" }

def aSlot1000 : AgentSlot := { hour := some hour1000, establishment := "estE1" }

def aSlot1030 : AgentSlot := { hour := some hour1030, establishment := "estE1" }

def gwSlot1000 : GatewaySlot :=
  { startTime := "10:00", endTime := "10:30", time := "t0", duration := 30,
    employees := ["emp1"] }

def gwSlot1030 : GatewaySlot :=
  { startTime := "10:30", endTime := "11:00", time := "t1", duration := 30,
    employees := ["emp2"] }

def demoBookingResp : BookingRespBody :=
  { customerName := "Ana", customerLastName := "Diaz", date := "2025-12-19",
    startTime := "10:30", endTime := "11:00", establishmentName := "E1",
    services := [svcS1] }

def agentNetOk : AgentNet :=
  { getServicesResp := .ok [svcS1, svcS2],
    availableTimeResp := fun _ => .ok [aSlot1000, aSlot1030],
    postBookingResp := fun _ => .ok demoBookingResp }

def gwNetOk : GwNet :=
  { servicesResp := .ok "servicesJson",
    establishmentsResp := fun _ => .ok "estJson",
    availableTimeResp := fun _ => .ok "availJson",
    availableTimeIdsResp := fun _ => .ok [gwSlot1000, gwSlot1030],
    postBookingResp := fun _ => .ok "bookingJson" }

def gwParamsDemo : GwParams :=
  { service_ids := ["S1"], services := [svcS1], date := "2025-12-19T05:00:00.000Z",
    establishment_id := "E1", establishment_name := "Shop", total_duration := 30,
    services_selected := [svcS1], schedule_isoDate := "2025-12-19T15:30:00.000Z",
    customer_email := "a@b.c", customer_name := "Ana", customer_last_name := "Diaz",
    customer_phone := "099", customer_phone_code := "+593" }

/-! ## Claims -/

/-- C2: for every UTC ISO-8601 input timestamp whose time-of-day is
strictly before 05:00, normalization under the backend's fixed UTC−5
offset yields the previous civil calendar date (the civil successor of
the normalized date is the input's UTC date, and the date does change);
in particular the gateway's date normalization sends
"2025-12-19T01:00:00.000Z" to the civil date "2025-12-18". -/
theorem claim_C2_before_5am_shifts_back :
    (∀ (s : String) (t : PyDatetime), fromisoformatUtc s = some t → t.hour < 5 →
      civilDateOf (toGuayaquil t) = prevCivilDay (civilDateOf t)
      ∧ nextCivilDay (civilDateOf (toGuayaquil t)) = civilDateOf t
      ∧ civilDateOf (toGuayaquil t) ≠ civilDateOf t)
    ∧ toLocalDateParam "2025-12-19T01:00:00.000Z" = some "2025-12-18" := by
  constructor
  · intro s t hparse hh
    obtain ⟨hvalid, -, hm, -⟩ := fromisoformatUtc_valid hparse
    have hshift := toGuayaquil_date_shift hh hm
    have hnext : nextCivilDay (civilDateOf (toGuayaquil t)) = civilDateOf t := by
      rw [hshift]; exact nextCivilDay_prevCivilDay _ hvalid
    refine ⟨hshift, hnext, ?_⟩
    intro heq
    rw [heq] at hnext
    exact nextCivilDay_ne _ hnext
  · decide

/-- Witness for C2 at the concrete boundary input of the claim. -/
theorem claim_C2_before_5am_shifts_back_witness :
    civilDateOf (toGuayaquil ⟨2025, 12, 19, 1, 0, 0⟩)
        = prevCivilDay (civilDateOf ⟨2025, 12, 19, 1, 0, 0⟩)
    ∧ nextCivilDay (civilDateOf (toGuayaquil ⟨2025, 12, 19, 1, 0, 0⟩))
        = civilDateOf ⟨2025, 12, 19, 1, 0, 0⟩
    ∧ civilDateOf (toGuayaquil ⟨2025, 12, 19, 1, 0, 0⟩)
        ≠ civilDateOf ⟨2025, 12, 19, 1, 0, 0⟩ :=
  claim_C2_before_5am_shifts_back.1 (replaceZwithOffset "2025-12-19T01:00:00.000Z")
    ⟨2025, 12, 19, 1, 0, 0⟩ (by decide) (by decide)

/-- C7: normalizing "2025-12-19T05:00:00.000Z" under the fixed UTC−5
offset yields civil date "2025-12-19" and civil time "00:00"; the date
does not shift at this boundary and the civil time-of-day is the UTC
time-of-day minus five hours. -/
theorem claim_C7_5am_boundary_no_shift :
    localDateTimeStrs "2025-12-19T05:00:00.000Z" = some ("2025-12-19", "00:00")
    ∧ (∃ u, fromisoformatUtc (replaceZwithOffset "2025-12-19T05:00:00.000Z") = some u
        ∧ u.hour = 5 ∧ u.minute = 0
        ∧ (toGuayaquil u).hour = 0 ∧ (toGuayaquil u).minute = 0
        ∧ civilDateOf (toGuayaquil u) = civilDateOf u) :=
  ⟨by decide, ⟨2025, 12, 19, 5, 0, 0⟩, by decide, rfl, rfl, by decide, by decide, by decide⟩

/-- C4: slot matching uses exact string equality on the slot's start time
and returns the first slot in the given order whose start time equals the
desired time (characterized for the gateway matcher and the agent
matcher); when nothing matches it returns no slot — the callers then
return the SlotUnavailable outcome instead of raising (claim C5) — and on
the example pair of slots the desired time "10:30" selects the second
slot while "11:00" selects none. -/
theorem claim_C4_first_exact_match :
    (∀ (t : String) (slots : List GatewaySlot) (s : GatewaySlot),
      matchingHour t slots = some s ↔
        ∃ l1 l2, slots = l1 ++ s :: l2 ∧ s.startTime = t ∧ ∀ x ∈ l1, x.startTime ≠ t)
    ∧ (∀ (t : String) (slots : List GatewaySlot),
      matchingHour t slots = none ↔ ∀ x ∈ slots, x.startTime ≠ t)
    ∧ (∀ (t : String) (slots : List AgentSlot) (s : AgentSlot),
      selectSlot t slots = some s ↔
        ∃ l1 l2, slots = l1 ++ s :: l2 ∧ hourStart s = some t
          ∧ ∀ x ∈ l1, hourStart x ≠ some t)
    ∧ (∀ (t : String) (slots : List AgentSlot),
      selectSlot t slots = none ↔ ∀ x ∈ slots, hourStart x ≠ some t)
    ∧ matchingHour "10:30" [gwSlot1000, gwSlot1030] = some gwSlot1030
    ∧ matchingHour "11:00" [gwSlot1000, gwSlot1030] = none := by
  refine ⟨?_, ?_, ?_, ?_, by decide, by decide⟩
  · intro t slots s
    rw [matchingHour, pyFirstMatch_eq_some_iff]
    simp only [decide_eq_true_eq, decide_eq_false_iff_not]
  · intro t slots
    rw [matchingHour, pyFirstMatch_eq_none_iff]
    simp only [decide_eq_false_iff_not]
  · intro t slots s
    rw [selectSlot, pyFirstMatch_eq_some_iff]
    simp only [decide_eq_true_eq, decide_eq_false_iff_not]
  · intro t slots
    rw [selectSlot, pyFirstMatch_eq_none_iff]
    simp only [decide_eq_false_iff_not]

/-- Witness for C4: the first-match characterization applied to the
concrete example of the claim. -/
theorem claim_C4_first_exact_match_witness :
    ∃ l1 l2, [gwSlot1000, gwSlot1030] = l1 ++ gwSlot1030 :: l2
      ∧ gwSlot1030.startTime = "10:30"
      ∧ ∀ x ∈ l1, x.startTime ≠ "10:30" :=
  (claim_C4_first_exact_match.1 "10:30" [gwSlot1000, gwSlot1030] gwSlot1030).mp (by decide)

/-- The write payload produced in the demo agent scenario. -/
def agentDemoPayload : AgentBookingPayload :=
  { customerInfo :=
      { email := "a@b.c", name := "Ana", lastName := "Diaz",
        phoneNumber := "099", gender := "", identification := "", phoneCode := "+593" },
    duration := 30,
    servicesSelected := [svcS1],
    scheduleSelected :=
      { establishment := "estE1", hour := hour1030,
        date := "2025-12-19T05:00:00.000Z" } }

/-- The write payload produced in the demo gateway scenario. -/
def gwDemoPayload : GwBookingPayload :=
  { customerInfo :=
      { email := "a@b.c", name := "Ana", lastName := "Diaz",
        phoneNumber := "099", phoneCode := "+593" },
    duration := 30, servicesSelected := [svcS1],
    scheduleSelected :=
      { establishmentId := "E1", establishmentName := "Shop",
        date := "2025-12-19", hour := gwSlot1030 } }

/-- C3: every slot placed in a booking write payload (its time and, on the
gateway side, employee fields) is an element of the slot sequence returned
by the availability query executed immediately before within the same
commit operation: the agent write's `scheduleSelected` carries the `hour`
and `establishment` of a member of the fresh response, and the gateway
write's `scheduleSelected.hour` is a member of the fresh `availableTime`
collection.  Neither commit path takes a slot object as input, so no
earlier display copy can reach the write payload. -/
theorem claim_C3_write_slot_from_fresh_query :
    (∀ (net : AgentNet) (cn cl ce cp cpc sids eid date time : String) (td : Int)
       (catalog : List Service) (slots : List AgentSlot) (bp : AgentBookingPayload),
      net.getServicesResp = .ok catalog →
      net.availableTimeResp (availableTimesPayload catalog date eid sids td) = .ok slots →
      bp ∈ (create_booking net cn cl ce cp cpc sids eid date time td).2 →
      ∃ slot ∈ slots, slot.establishment = bp.scheduleSelected.establishment
        ∧ slot.hour = some bp.scheduleSelected.hour)
    ∧ (∀ (net : GwNet) (p : GwParams) (u : PyDatetime) (slots : List GatewaySlot)
         (bp : GwBookingPayload),
      fromisoformatUtc (replaceZwithOffset p.schedule_isoDate) = some u →
      net.availableTimeIdsResp
        (gwAvailRequest p.establishment_id p.total_duration p.services_selected
          (dateStr (toGuayaquil u))) = .ok slots →
      bp ∈ (createBooking_gw net p).2 →
      bp.scheduleSelected.hour ∈ slots) := by
  constructor
  · intro net cn cl ce cp cpc sids eid date time td catalog slots bp hcat havail hbp
    obtain ⟨catalog2, slots2, sl, h, hg2, ha2, hsel2, hslh2, hbp_eq⟩ :=
      create_booking_write_shape net cn cl ce cp cpc sids eid date time td bp hbp
    rw [hcat] at hg2
    injection hg2 with hceq
    subst hceq
    rw [havail] at ha2
    injection ha2 with hseq
    subst hseq
    simp only [selectSlot] at hsel2
    refine ⟨sl, (pyFirstMatch_mem hsel2).1, ?_, ?_⟩
    · rw [hbp_eq]
    · rw [hbp_eq]
      exact hslh2
  · intro net p u slots bp hu havail hbp
    obtain ⟨u2, slots2, sl, hu2, ha2, hm2, hbp_eq⟩ :=
      createBooking_gw_write_shape net p bp hbp
    rw [hu] at hu2
    injection hu2 with hueq
    subst hueq
    rw [havail] at ha2
    injection ha2 with hseq
    subst hseq
    simp only [matchingHour] at hm2
    rw [hbp_eq]
    exact (pyFirstMatch_mem hm2).1

/-- Witness for C3: the agent demo scenario commits the 10:30 slot of the
fresh availability response. -/
theorem claim_C3_write_slot_from_fresh_query_witness :
    ∃ slot ∈ [aSlot1000, aSlot1030],
      slot.establishment = agentDemoPayload.scheduleSelected.establishment
      ∧ slot.hour = some agentDemoPayload.scheduleSelected.hour :=
  claim_C3_write_slot_from_fresh_query.1 agentNetOk "Ana" "Diaz" "a@b.c" "099" "+593"
    "S1" "E1" "2025-12-19T05:00:00.000Z" "10:30" 30 [svcS1, svcS2]
    [aSlot1000, aSlot1030] agentDemoPayload rfl rfl (by decide)

/-- C5: when the desired start time matches no slot of the fresh
availability re-check, the commit returns the SlotUnavailable outcome and
issues no request to the booking write endpoint (the list of issued write
requests is empty); stated for the agent's `create_booking` and for the
gateway's `createBooking` branch. -/
theorem claim_C5_unmatched_no_write :
    (∀ (net : AgentNet) (cn cl ce cp cpc sids eid date time : String) (td : Int)
       (catalog : List Service) (slots : List AgentSlot),
      net.getServicesResp = .ok catalog →
      net.availableTimeResp (availableTimesPayload catalog date eid sids td) = .ok slots →
      (∀ x ∈ slots, hourStart x ≠ some time) →
      create_booking net cn cl ce cp cpc sids eid date time td
        = ("Time slot " ++ time ++ " is no longer available. Please choose another time.", []))
    ∧ (∀ (net : GwNet) (p : GwParams) (u : PyDatetime) (slots : List GatewaySlot),
      fromisoformatUtc (replaceZwithOffset p.schedule_isoDate) = some u →
      net.availableTimeIdsResp
        (gwAvailRequest p.establishment_id p.total_duration p.services_selected
          (dateStr (toGuayaquil u))) = .ok slots →
      (∀ x ∈ slots, x.startTime ≠ timeStr (toGuayaquil u)) →
      createBooking_gw net p
        = (.ok (.errorObj ("No available time slot found for " ++ timeStr (toGuayaquil u))),
           [])) := by
  constructor
  · intro net cn cl ce cp cpc sids eid date time td catalog slots hcat havail hnone
    have hsel : selectSlot time slots = none := by
      rw [selectSlot, pyFirstMatch_eq_none_iff]
      intro x hx
      simpa using hnone x hx
    unfold create_booking
    rw [hcat]
    dsimp only
    rw [havail]
    dsimp only
    rw [hsel]
  · intro net p u slots hu havail hnone
    have hm : matchingHour (timeStr (toGuayaquil u)) slots = none := by
      rw [matchingHour, pyFirstMatch_eq_none_iff]
      intro x hx
      simpa using hnone x hx
    unfold createBooking_gw
    rw [hu]
    dsimp only
    rw [havail]
    dsimp only
    rw [hm]

/-- Witness for C5: in the agent demo scenario the desired time "11:00"
matches no fresh slot, so the SlotUnavailable text is returned and the
write-request list is empty. -/
theorem claim_C5_unmatched_no_write_witness :
    create_booking agentNetOk "Ana" "Diaz" "a@b.c" "099" "+593" "S1" "E1"
        "2025-12-19T05:00:00.000Z" "11:00" 30
      = ("Time slot " ++ "11:00" ++ " is no longer available. Please choose another time.",
         []) :=
  claim_C5_unmatched_no_write.1 agentNetOk "Ana" "Diaz" "a@b.c" "099" "+593" "S1" "E1"
    "2025-12-19T05:00:00.000Z" "11:00" 30 [svcS1, svcS2] [aSlot1000, aSlot1030]
    rfl rfl (by decide)

/-- C9: in the gateway's `createBooking` branch the civil date and the
desired start time are both derived from the single instant
`schedule_selected.isoDate`: every issued write payload carries the
local (America/Guayaquil) date of that instant, its slot's start time is
the local HH:MM of that instant, and the slot is a member of the fresh
availability response; the operation takes no separate desired-time
input. -/
theorem claim_C9_date_and_time_from_single_instant :
    ∀ (net : GwNet) (p : GwParams) (u : PyDatetime) (slots : List GatewaySlot)
      (bp : GwBookingPayload),
      fromisoformatUtc (replaceZwithOffset p.schedule_isoDate) = some u →
      net.availableTimeIdsResp
        (gwAvailRequest p.establishment_id p.total_duration p.services_selected
          (dateStr (toGuayaquil u))) = .ok slots →
      bp ∈ (createBooking_gw net p).2 →
      bp.scheduleSelected.date = dateStr (toGuayaquil u)
      ∧ bp.scheduleSelected.hour.startTime = timeStr (toGuayaquil u)
      ∧ bp.scheduleSelected.hour ∈ slots := by
  intro net p u slots bp hu havail hbp
  obtain ⟨u2, slots2, sl, hu2, ha2, hm2, hbp_eq⟩ :=
    createBooking_gw_write_shape net p bp hbp
  rw [hu] at hu2
  injection hu2 with hueq
  subst hueq
  rw [havail] at ha2
  injection ha2 with hseq
  subst hseq
  simp only [matchingHour] at hm2
  have hmem := pyFirstMatch_mem hm2
  refine ⟨by rw [hbp_eq], ?_, ?_⟩
  · rw [hbp_eq]
    exact of_decide_eq_true hmem.2
  · rw [hbp_eq]
    exact hmem.1

/-- Witness for C9: in the gateway demo scenario the instant
2025-12-19T15:30Z yields local date 2025-12-19 and local time 10:30, and
the committed slot is the fresh 10:30 slot. -/
theorem claim_C9_date_and_time_from_single_instant_witness :
    gwDemoPayload.scheduleSelected.date = dateStr (toGuayaquil ⟨2025, 12, 19, 15, 30, 0⟩)
    ∧ gwDemoPayload.scheduleSelected.hour.startTime
        = timeStr (toGuayaquil ⟨2025, 12, 19, 15, 30, 0⟩)
    ∧ gwDemoPayload.scheduleSelected.hour ∈ [gwSlot1000, gwSlot1030] :=
  claim_C9_date_and_time_from_single_instant gwNetOk gwParamsDemo
    ⟨2025, 12, 19, 15, 30, 0⟩ [gwSlot1000, gwSlot1030] gwDemoPayload
    (by decide) rfl (by decide)

/-- Counterexample to C1 as stated: with a catalog containing only service
S1 (duration 30), a call requesting services "S1" with caller-supplied
total_duration 999 builds an availability request whose duration field is
999 — the caller-supplied value — and not the sum (30) of the
durationMinutes of the resolved service descriptors. -/
theorem claim_C1_counterexample_duration_not_recomputed :
    (availableTimesPayload [svcS1] "2025-12-19T05:00:00.000Z" "E1" "S1" 999).duration
      ≠ sumDurations
          (availableTimesPayload [svcS1] "2025-12-19T05:00:00.000Z" "E1" "S1" 999).services
    ∧ (availableTimesPayload [svcS1] "2025-12-19T05:00:00.000Z" "E1" "S1" 999).services
        = [svcS1]
    ∧ sumDurations [svcS1] = 30
    ∧ (availableTimesPayload [svcS1] "2025-12-19T05:00:00.000Z" "E1" "S1" 999).duration
        = 999 :=
  ⟨by decide, by decide, by decide, by decide⟩

/-- C1 amended: the duration placed in every availability request and
every booking write payload is the caller-supplied total_duration
argument, passed through independently of the services list; it equals
the sum of the resolved services' durations only when the caller supplies
that sum. -/
theorem claim_C1_amended_duration_is_caller_supplied :
    (∀ (all_services : List Service) (date eid sids : String) (td : Int),
      (availableTimesPayload all_services date eid sids td).duration = td)
    ∧ (∀ (eid : String) (td : Int) (ss : List Service) (ds : String),
      (gwAvailRequest eid td ss ds).duration = td)
    ∧ (∀ (net : AgentNet) (cn cl ce cp cpc sids eid date time : String) (td : Int)
        (bp : AgentBookingPayload),
      bp ∈ (create_booking net cn cl ce cp cpc sids eid date time td).2 →
      bp.duration = td)
    ∧ (∀ (net : GwNet) (p : GwParams) (bp : GwBookingPayload),
      bp ∈ (createBooking_gw net p).2 → bp.duration = p.total_duration) := by
  refine ⟨fun _ _ _ _ _ => rfl, fun _ _ _ _ => rfl, ?_, ?_⟩
  · intro net cn cl ce cp cpc sids eid date time td bp hbp
    obtain ⟨_, _, _, _, _, _, _, _, hbp_eq⟩ :=
      create_booking_write_shape net cn cl ce cp cpc sids eid date time td bp hbp
    rw [hbp_eq]
  · intro net p bp hbp
    obtain ⟨_, _, _, _, _, _, hbp_eq⟩ := createBooking_gw_write_shape net p bp hbp
    rw [hbp_eq]

/-- Witness for the amended C1: the agent demo booking carries the
caller-supplied duration 30. -/
theorem claim_C1_amended_duration_is_caller_supplied_witness :
    agentDemoPayload.duration = 30 :=
  claim_C1_amended_duration_is_caller_supplied.2.2.1 agentNetOk "Ana" "Diaz" "a@b.c"
    "099" "+593" "S1" "E1" "2025-12-19T05:00:00.000Z" "10:30" 30 agentDemoPayload
    (by decide)

/-- Oracle for the C6 scenario: the catalog holds only S1 and the
availability endpoint returns one slot. -/
def agentNetMissing : AgentNet :=
  { getServicesResp := .ok [svcS1],
    availableTimeResp := fun _ => .ok [aSlot1030],
    postBookingResp := fun _ => .ok demoBookingResp }

/-- Counterexample to C6 as stated: with catalog [S1], requesting the
identifiers "S1,MISSING" — where MISSING is absent from the catalog —
does not fail with any ServiceNotFound outcome: resolution silently
filters to [S1] and the availability call proceeds and returns the
normal listing. -/
theorem claim_C6_counterexample_no_servicenotfound :
    resolveServices [svcS1] "S1,MISSING" = [svcS1]
    ∧ "MISSING" ∉ [svcS1].map Service._id
    ∧ "MISSING" ∈ pySplitComma "S1,MISSING"
    ∧ get_available_times agentNetMissing "2025-12-19T05:00:00.000Z" "E1" "S1,MISSING" 30
        = "Available times for 2025-12-19:\n\n- 10:30 - 11:00\n" :=
  ⟨by decide, by decide, by decide, by decide⟩

/-- C6 amended: when some requested identifier is absent from the fetched
catalog, service resolution does not fail and no ServiceNotFound error
exists; the operation silently proceeds with the subset of identifiers
found, issues the availability request with that subset, and returns the
normal listing. -/
theorem claim_C6_amended_missing_ids_silently_dropped :
    ∀ (net : AgentNet) (date eid sids : String) (td : Int)
      (catalog : List Service) (slots : List AgentSlot),
      net.getServicesResp = .ok catalog →
      (∃ i ∈ pySplitComma sids, i ∉ catalog.map Service._id) →
      net.availableTimeResp (availableTimesPayload catalog date eid sids td) = .ok slots →
      slots ≠ [] →
      get_available_times net date eid sids td
        = "Available times for " ++ headBeforeT date ++ ":\n\n" ++ formatSlotLines slots := by
  intro net date eid sids td catalog slots hcat hmissing havail hne
  unfold get_available_times
  rw [hcat]
  dsimp only
  rw [havail]
  dsimp only
  rw [if_neg hne]

/-- Witness for the amended C6 at the concrete missing-identifier input. -/
theorem claim_C6_amended_missing_ids_silently_dropped_witness :
    get_available_times agentNetMissing "2025-12-19T05:00:00.000Z" "E1" "S1,MISSING" 30
      = "Available times for " ++ headBeforeT "2025-12-19T05:00:00.000Z" ++ ":\n\n"
        ++ formatSlotLines [aSlot1030] :=
  claim_C6_amended_missing_ids_silently_dropped agentNetMissing
    "2025-12-19T05:00:00.000Z" "E1" "S1,MISSING" 30 [svcS1] [aSlot1030]
    rfl ⟨"MISSING", by decide, by decide⟩ rfl (by decide)

/-- Counterexample to C8 as stated: the gateway extracts the tool name
with `str.index` BEFORE its `try` block, so an original tool name without
the "___" delimiter — malformed data reaching the tool dispatch — raises
an uncaught ValueError (a top-level `Except.error`) instead of returning
a typed error object. -/
theorem claim_C8_counterexample_undelimited_name_uncaught :
    lambda_handler gwNetOk "getServices" gwParamsDemo = .error "substring not found" := rfl

/-- C8 amended: every failure arising inside the guarded tool dispatch
(network failure, backend rejection, malformed data, unknown tool) is
returned as a typed outcome — an error object from the gateway, an error
string from the agent tools — and never as an uncaught exception; the
sole exception is the gateway's tool-name extraction, which runs before
the `try` block and raises uncaught exactly when the delimiter is absent
from the original tool name. -/
theorem claim_C8_amended_guarded_failures_typed :
    (∀ (net : GwNet) (name p_tool : String) (p : GwParams),
      extractToolName name = .ok p_tool →
      lambda_handler net name p = .ok (guardedDispatch net p_tool p))
    ∧ (∀ (net : GwNet) (name e : String) (p : GwParams),
      extractToolName name = .error e → lambda_handler net name p = .error e)
    ∧ (∀ (net : GwNet) (p : GwParams) (e : String),
      net.servicesResp = .error e → guardedDispatch net "getServices" p = (.errorObj e, []))
    ∧ (∀ (net : AgentNet) (cn cl ce cp cpc sids eid date time : String) (td : Int)
        (e : String),
      net.getServicesResp = .error e →
      create_booking net cn cl ce cp cpc sids eid date time td
        = ("Error creating booking: " ++ e, []))
    ∧ (∀ (net : AgentNet) (date eid sids : String) (td : Int) (e : String),
      net.getServicesResp = .error e →
      get_available_times net date eid sids td = "Error fetching available times: " ++ e) := by
  refine ⟨?_, ?_, ?_, ?_, ?_⟩
  · intro net name p_tool p h
    unfold lambda_handler
    rw [h]
  · intro net name e p h
    unfold lambda_handler
    rw [h]
  · intro net p e h
    unfold guardedDispatch
    rw [if_pos rfl, h]
  · intro net cn cl ce cp cpc sids eid date time td e h
    unfold create_booking
    rw [h]
  · intro net date eid sids td e h
    unfold get_available_times
    rw [h]

/-- Witness for the amended C8: a delimited tool name dispatches inside
the guard and can only yield a returned value, never an uncaught fault. -/
theorem claim_C8_amended_guarded_failures_typed_witness :
    lambda_handler gwNetOk "tempobook___getServices" gwParamsDemo
      = .ok (guardedDispatch gwNetOk "getServices" gwParamsDemo) :=
  claim_C8_amended_guarded_failures_typed.1 gwNetOk "tempobook___getServices"
    "getServices" gwParamsDemo rfl

/-- C10: the resolved service list depends only on the membership of the
split identifier list — it is invariant under permutation and duplication
of the comma-joined requested identifiers — it is a sublist of the
catalog (so it preserves catalog order and cannot repeat an entry beyond
its catalog multiplicity), a service is resolved exactly when it is a
catalog entry whose id was requested, and for a duplicate-free catalog
each matching catalog service is listed exactly once. -/
theorem claim_C10_resolution_membership_invariant :
    (∀ (catalog : List Service) (s1 s2 : String),
      (∀ x, x ∈ pySplitComma s1 ↔ x ∈ pySplitComma s2) →
      resolveServices catalog s1 = resolveServices catalog s2)
    ∧ (∀ (catalog : List Service) (s : String),
      (resolveServices catalog s).Sublist catalog)
    ∧ (∀ (catalog : List Service) (s : String),
      catalog.Nodup → (resolveServices catalog s).Nodup)
    ∧ (∀ (catalog : List Service) (s : String) (svc : Service),
      svc ∈ resolveServices catalog s ↔ svc ∈ catalog ∧ svc._id ∈ pySplitComma s)
    ∧ (∀ (catalog : List Service) (s : String) (svc : Service),
      catalog.Nodup → svc ∈ catalog → svc._id ∈ pySplitComma s →
      (resolveServices catalog s).count svc = 1) := by
  refine ⟨?_, ?_, ?_, ?_, ?_⟩
  · intro catalog s1 s2 h
    unfold resolveServices
    apply List.filter_congr
    intro a _
    exact decide_eq_decide.mpr (h a._id)
  · intro catalog s
    exact List.filter_sublist catalog
  · intro catalog s h
    exact h.filter _
  · intro catalog s svc
    simp [resolveServices, List.mem_filter]
  · intro catalog s svc hnd hmem hid
    have hmem2 : svc ∈ resolveServices catalog s := by
      simp [resolveServices, List.mem_filter, hmem, hid]
    exact List.count_eq_one_of_mem (hnd.filter _) hmem2

/-- Witness for C10: permuting and duplicating the requested identifiers
leaves the resolved list unchanged. -/
theorem claim_C10_resolution_membership_invariant_witness :
    resolveServices [svcS1, svcS2] "S1,S2" = resolveServices [svcS1, svcS2] "S2,S1,S1" := by
  apply claim_C10_resolution_membership_invariant.1
  have e1 : pySplitComma "S1,S2" = ["S1", "S2"] := by decide
  have e2 : pySplitComma "S2,S1,S1" = ["S2", "S1", "S1"] := by decide
  rw [e1, e2]
  intro x
  simp only [List.mem_cons, List.not_mem_nil, or_false]
  tauto
